import Mathlib

/-!
Shallow embedding of the verification core of the mfa repository:
backend/services/face_recognition.py, voice_recognition.py,
gesture_recognition.py, keystroke_service.py and backend/routes/auth.py.

Numeric Python code is modelled over the real numbers (Python floats are
embedded as exact reals).  A Python function that can `raise` is modelled
as an `Except`-valued function, an `Except.error` value standing for a
raised exception escaping the function; a Python function that reports a
failure by returning an error tuple is modelled as a plain value.
-/

namespace Mfa

noncomputable section

open Finset

/-- One-dimensional `np.dot`: the sum of componentwise products. -/
def dotv {n : ℕ} (a b : Fin n → ℝ) : ℝ := ∑ i, a i * b i

/-- Sum of squares of the components. -/
def sumSq {n : ℕ} (a : Fin n → ℝ) : ℝ := ∑ i, (a i) ^ 2

/-- `np.linalg.norm` of a 1-d vector: the square root of the sum of squares. -/
def npNorm {n : ℕ} (a : Fin n → ℝ) : ℝ := Real.sqrt (sumSq a)

/-- `np.mean` of a vector. -/
def npMean {n : ℕ} (a : Fin n → ℝ) : ℝ := (∑ i, a i) / n

/-- Componentwise deviation from the mean. -/
def centered {n : ℕ} (a : Fin n → ℝ) : Fin n → ℝ := fun i => a i - npMean a

/-- `np.corrcoef(a, b)[0, 1]`: the Pearson correlation coefficient.  The
normalisation factors of the covariance and the standard deviations cancel,
so it equals the centered dot product over the product of centered norms.
(When a vector is constant, `numpy` produces `nan`; in this embedding the
division by zero yields `0`.  No claim below depends on that corner.) -/
def corrcoef {n : ℕ} (a b : Fin n → ℝ) : ℝ :=
  dotv (centered a) (centered b) / (npNorm (centered a) * npNorm (centered b))

/-- Sum of absolute differences (`np.sum(np.abs(a - b))`). -/
def manhattanDist {n : ℕ} (a b : Fin n → ℝ) : ℝ := ∑ i, |a i - b i|

/-- Python exceptions raised by the matcher components. -/
inductive PyExn
| valueErrorDimMismatch
| valueErrorAudioTooShort
| valueErrorAudioTooLarge
| valueErrorInsufficientKeystrokeData
| valueErrorInsufficientSamples
deriving DecidableEq

/-! ## Face matcher — services/face_recognition.py -/

namespace AdvancedFaceService

def DISTANCE_THRESHOLD : ℝ := 0.35

def MIN_CONFIDENCE : ℝ := 90

def MIN_COSINE_SIMILARITY : ℝ := 0.65

/-- `face_recognition.face_distance([known], test)[0]`: the Euclidean norm
of the embedding difference. -/
def face_distance {n : ℕ} (known test : Fin n → ℝ) : ℝ :=
  npNorm (fun i => known i - test i)

/-- Cosine similarity as computed in `verify_faces` (lines 209-212). -/
def cosine_similarity {n : ℕ} (known test : Fin n → ℝ) : ℝ :=
  dotv known test / (npNorm known * npNorm test + 1e-10)

structure FaceResult where
  is_match : Prop
  confidence : ℝ
  distance : ℝ

/-- `AdvancedFaceService.verify_faces` with the default threshold
(lines 196-249): three criteria, all required. -/
def verify_faces {n : ℕ} (known test : Fin n → ℝ) : FaceResult :=
  let threshold := DISTANCE_THRESHOLD
  let distance := face_distance known test
  let confidence : ℝ :=
    if distance < threshold then (1 - distance / threshold) * 100 else 0
  let cs := cosine_similarity known test
  { is_match :=
      distance < threshold ∧ MIN_CONFIDENCE ≤ confidence ∧ MIN_COSINE_SIMILARITY < cs,
    confidence := confidence,
    distance := distance }

/-- List-level entry: on arrays of different lengths `np.dot` raises and the
surrounding `except` handler (lines 251-256) returns `(False, 0.0, 1.0)`. -/
def verify_faces_lists (known test : List ℝ) : FaceResult :=
  if h : known.length = test.length then
    verify_faces known.get (fun i => test.get (Fin.cast h i))
  else
    { is_match := False, confidence := 0, distance := 1 }

inductive FaceExtractErr
| noFaceDetected
| multipleFacesDetected
| encodingFailed
deriving DecidableEq

/-- Validation of `AdvancedFaceService.extract_embedding` (lines 104-146):
zero detected faces, several detected faces, and a failed encoding are all
reported by RETURNING an error value in the (embedding, error, saved_path)
tuple — the whole body runs under `try`, so no exception leaves the
extractor. -/
def extract_embedding_check (num_faces : ℕ) (encodings_nonempty : Bool) :
    Option FaceExtractErr :=
  if num_faces = 0 then some FaceExtractErr.noFaceDetected
  else if 1 < num_faces then some FaceExtractErr.multipleFacesDetected
  else if encodings_nonempty = false then some FaceExtractErr.encodingFailed
  else none

end AdvancedFaceService

/-! ## Voice matcher — services/voice_recognition.py -/

inductive SecurityProfile | RELAXED | BALANCED | STRICT
deriving DecidableEq

/-- PROFILE_CONFIG thresholds (lines 31-35). -/
def profileThreshold : SecurityProfile → ℝ
| .RELAXED => 0.80
| .BALANCED => 0.88
| .STRICT => 0.93

/-- PROFILE_CONFIG minimum byte sizes (lines 31-35). -/
def profileMinBytes : SecurityProfile → ℕ
| .RELAXED => 8000
| .BALANCED => 10000
| .STRICT => 12000

def MAX_AUDIO_SIZE : ℕ := 5000000

inductive VoiceFlag
| LOW_QUALITY_AUDIO
| STRONG_VOICE_MISMATCH
| POTENTIAL_REPLAY_OR_SYNTHETIC

structure VoiceVerificationResult where
  is_match : Prop
  similarity : ℝ
  distance : ℝ
  profile : SecurityProfile
  threshold : ℝ
  quality_score : ℝ
  flags : List VoiceFlag

namespace VoiceMatcher

/-- `VoiceMatcher._cosine` (lines 248-252). -/
def cosine {n : ℕ} (a b : Fin n → ℝ) : ℝ :=
  dotv a b / (npNorm a * npNorm b + 1e-9)

/-- `VoiceMatcher._euclidean_sim` (lines 254-257). -/
def euclidean_sim {n : ℕ} (a b : Fin n → ℝ) : ℝ :=
  1 / (1 + npNorm (fun i => a i - b i))

/-- `VoiceMatcher._correlation_sim` (lines 259-264): vectors shorter than 2
entries score a fixed 0.5, otherwise the Pearson coefficient rescaled to
the unit interval. -/
def correlation_sim {n : ℕ} (a b : Fin n → ℝ) : ℝ :=
  if n < 2 then 0.5 else (corrcoef a b + 1) / 2

/-- `VoiceMatcher.compare` (lines 266-313) on vectors of equal, already
checked dimension. -/
def compare {n : ℕ} (known probe : Fin n → ℝ) (profile : SecurityProfile)
    (quality_known quality_probe : ℝ) : VoiceVerificationResult :=
  let cos := cosine known probe
  let eu := euclidean_sim known probe
  let corr := correlation_sim known probe
  let similarity := 0.5 * cos + 0.3 * eu + 0.2 * corr
  let distance := 1 - similarity
  let threshold := profileThreshold profile
  let avg_quality := max 0 (min 1 ((quality_known + quality_probe) / 2))
  let effective_similarity := similarity * (0.5 + 0.5 * avg_quality)
  let flags :=
    (if avg_quality < 0.4 then [VoiceFlag.LOW_QUALITY_AUDIO] else []) ++
    (if cos < threshold - 0.15 then [VoiceFlag.STRONG_VOICE_MISMATCH] else []) ++
    (if distance < 0.02 ∧ avg_quality < 0.3 then
      [VoiceFlag.POTENTIAL_REPLAY_OR_SYNTHETIC] else [])
  { is_match := threshold ≤ effective_similarity,
    similarity := effective_similarity,
    distance := distance,
    profile := profile,
    threshold := threshold,
    quality_score := avg_quality,
    flags := flags }

/-- `VoiceMatcher.compare` at its real boundary (lines 275-278): on a shape
mismatch it RAISES `ValueError`, modelled as `Except.error`.
`AdvancedVoiceServiceV2.verify` (lines 389-405) calls it with no handler,
so the exception propagates to the caller of the service. -/
def compareLists (known probe : List ℝ) (profile : SecurityProfile)
    (quality_known quality_probe : ℝ) : Except PyExn VoiceVerificationResult :=
  if h : known.length = probe.length then
    .ok (compare known.get (fun i => probe.get (Fin.cast h i))
          profile quality_known quality_probe)
  else
    .error PyExn.valueErrorDimMismatch

end VoiceMatcher

/-- Size guard of `FeatureExtractor.extract_feature_vector` (lines 187-200):
audio outside the per-profile byte bounds RAISES `ValueError`.  The
downstream webm decoding and feature maths depend on ffmpeg and are
external to this model. -/
def extract_feature_vector_size_guard (byte_len : ℕ) (profile : SecurityProfile) :
    Except PyExn Unit :=
  if byte_len < profileMinBytes profile then .error PyExn.valueErrorAudioTooShort
  else if MAX_AUDIO_SIZE < byte_len then .error PyExn.valueErrorAudioTooLarge
  else .ok ()

/-- `AdvancedVoiceServiceV2.extract_features` (lines 371-387) calls
`extract_feature_vector` with no handler, so the `ValueError` propagates
out of the voice service to its caller. -/
def advancedVoiceServiceV2_extract_features_guard (byte_len : ℕ)
    (profile : SecurityProfile) : Except PyExn Unit :=
  extract_feature_vector_size_guard byte_len profile

/-! ## Gesture matcher — services/gesture_recognition.py -/

namespace AdvancedGestureService

def SIMILARITY_THRESHOLD : ℝ := 0.88

def MIN_POINTS : ℕ := 15

def MAX_POINTS : ℕ := 1000

inductive GestureErr
| invalidFormat
| missingPoints
| insufficientPoints
| tooManyPoints
| noCoordinates
deriving DecidableEq

structure GestureResult where
  is_match : Prop
  similarity : ℝ
  distance : ℝ

/-- `AdvancedGestureService.verify_gestures` (lines 313-366) on vectors of
equal, already checked dimension: four similarity methods blended with
fixed weights, accept iff the blend reaches the threshold. -/
def verify_gestures {n : ℕ} (known test : Fin n → ℝ) : GestureResult :=
  let cosine_similarity := dotv known test / (npNorm known * npNorm test + 1e-10)
  let euclidean_dist := npNorm (fun i => known i - test i)
  let euclidean_similarity := 1 / (1 + euclidean_dist)
  let correlation := corrcoef known test
  let correlation_similarity := (correlation + 1) / 2
  let manhattan_similarity := 1 / (1 + manhattanDist known test)
  let similarity :=
    0.40 * cosine_similarity + 0.25 * euclidean_similarity +
    0.25 * correlation_similarity + 0.10 * manhattan_similarity
  { is_match := SIMILARITY_THRESHOLD ≤ similarity,
    similarity := similarity,
    distance := 1 - similarity }

/-- List-level entry of `verify_gestures` (lines 314-317): an explicit
length check returns `(False, 0.0, 1.0)` on mismatch, no exception. -/
def verify_gestures_lists (known test : List ℝ) : GestureResult :=
  if h : known.length = test.length then
    verify_gestures known.get (fun i => test.get (Fin.cast h i))
  else
    { is_match := False, similarity := 0, distance := 1 }

/-- Validation of `AdvancedGestureService.extract_features` (lines 55-69):
out-of-range point counts are reported by RETURNING an error value in the
(features, error, saved_path) tuple, never by raising. -/
def extract_features_check (num_points : ℕ) : Option GestureErr :=
  if num_points < MIN_POINTS then some GestureErr.insufficientPoints
  else if MAX_POINTS < num_points then some GestureErr.tooManyPoints
  else none

end AdvancedGestureService

/-! ## Keystroke matcher — services/keystroke_service.py -/

namespace KeystrokeDynamicsAnalyzer

def SIMILARITY_THRESHOLD : ℝ := 1.2

def MIN_CONFIDENCE : ℝ := 38

def MIN_SAMPLES : ℕ := 3

/-- The normalized distance of `verify_pattern` (lines 322-326): root mean
square of the per-feature deviations normalized by std plus epsilon. -/
def verification_distance {n : ℕ} (mean_features std_features sample_features : Fin n → ℝ) : ℝ :=
  Real.sqrt ((∑ i, ((sample_features i - mean_features i) / (std_features i + 1e-6)) ^ 2) / n)

structure KsResult where
  verified : Prop
  confidence : ℝ

/-- `KeystrokeDynamicsAnalyzer.verify_pattern` (lines 293-361) after
successful feature extraction: distance, confidence, two criteria. -/
def verify_pattern {n : ℕ} (mean_features std_features sample_features : Fin n → ℝ) : KsResult :=
  let distance := verification_distance mean_features std_features sample_features
  let confidence := (1 / (1 + distance)) * 100
  { verified := distance < SIMILARITY_THRESHOLD ∧ MIN_CONFIDENCE ≤ confidence,
    confidence := confidence }

/-- Per-feature mean over enrollment samples, `np.mean(feature_matrix, axis=0)`
in `enroll_pattern` (line 258). -/
def profile_mean {n : ℕ} (samples : List (Fin n → ℝ)) : Fin n → ℝ :=
  fun j => (samples.map (fun s => s j)).sum / samples.length

/-- Per-feature standard deviation over enrollment samples,
`np.std(feature_matrix, axis=0)` in `enroll_pattern` (line 259). -/
def profile_std {n : ℕ} (samples : List (Fin n → ℝ)) : Fin n → ℝ :=
  fun j =>
    Real.sqrt ((samples.map (fun s => (s j - profile_mean samples j) ^ 2)).sum /
      samples.length)

/-- Guard of `extract_features` (lines 122-126): fewer than 3 timing
entries RAISES `ValueError`. -/
def extract_features_guard (timings_len : ℕ) : Except PyExn Unit :=
  if timings_len < 3 then .error PyExn.valueErrorInsufficientKeystrokeData
  else .ok ()

/-- Entry behaviour of `verify_pattern` (lines 309-368): the body runs under
`try`, and any exception (in particular the extraction `ValueError`) is
caught and converted to the result value `(False, 0.0)`. -/
def verify_pattern_entry (timings_len : ℕ) (on_ok : Bool × ℝ) : Bool × ℝ :=
  match extract_features_guard timings_len with
  | .error _ => (false, 0)
  | .ok _ => on_ok

/-- Shape behaviour of `verify_pattern`: `sample_features - mean_features`
broadcasts when either side has length one, and otherwise `numpy` raises on
unequal lengths, which the surrounding `except` turns into `(False, 0.0)`. -/
def verify_pattern_shapes (mean_len sample_len : ℕ) (on_ok : Bool × ℝ) : Bool × ℝ :=
  if sample_len = mean_len ∨ sample_len = 1 ∨ mean_len = 1 then on_ok
  else (false, 0)

/-- Guards of `enroll_pattern` (lines 233-251): too few samples raises, and
an extraction failure in any sample is re-raised, escaping the analyzer. -/
def enroll_pattern_guard (sample_timing_lens : List ℕ) : Except PyExn Unit :=
  if sample_timing_lens.length < MIN_SAMPLES then
    .error PyExn.valueErrorInsufficientSamples
  else if sample_timing_lens.any (fun l => l < 3) then
    .error PyExn.valueErrorInsufficientKeystrokeData
  else .ok ()

end KeystrokeDynamicsAnalyzer

end

/-! ## Challenge tokens and MFA routes — routes/auth.py

Timestamps are integer seconds.  The JWT signature is abstracted by a
validity flag; `pyjwt` raises `ExpiredSignatureError` when the `exp` claim
is at or before the current time.  Extraction and matcher outcomes are
passed to the route models as parameters, because the routed claims are
about the order of the checks, which does not depend on those outcomes. -/

def MFA_TOKEN_EXPIRY : ℤ := 300

structure MfaToken where
  user_id : ℤ
  iat : ℤ
  exp : ℤ
  sig_ok : Bool
deriving DecidableEq

/-- `create_mfa_token` (lines 30-36). -/
def create_mfa_token (user_id now : ℤ) : MfaToken :=
  { user_id := user_id, iat := now, exp := now + MFA_TOKEN_EXPIRY, sig_ok := true }

inductive TokenErr | expired | invalid
deriving DecidableEq

/-- `decode_mfa_token` (lines 39-46): signature and expiry are both checked
by `pyjwt.decode`; failure raises, which every route converts into a
rejection response. -/
def decode_mfa_token (now : ℤ) (tok : MfaToken) : Except TokenErr ℤ :=
  if tok.sig_ok = false then .error TokenErr.invalid
  else if tok.exp ≤ now then .error TokenErr.expired
  else .ok tok.user_id

structure UserRec where
  id : ℤ
  face_enrolled : Bool
  voice_enrolled : Bool
  gesture_enrolled : Bool
  keystroke_enrolled : Bool
  otp_enrolled : Bool
  keystroke_passphrase : ℕ
deriving DecidableEq

/-- A row of the backup_codes table (models.py lines 95-114); the password
hash comparison of `check_code` is abstracted as equality of code values. -/
structure BCode where
  id : ℕ
  code : ℕ
  is_used : Bool
deriving DecidableEq

inductive MfaRouteResult
| badRequest
| tokenRejected (e : TokenErr)
| userNotFound
| notEnrolled
| storedDataInvalid
| extractionFailed
| internalError
| otpRejected
| passphraseRejected
| matchRejected
| noCodes
| sessionGranted
deriving DecidableEq

/-- `/mfa/verify-face` (lines 254-379).  The handler checks payload, decodes
the token (an expired token raises, caught by the outer handler, 500, no
session), loads the user, requires enrollment, extracts the probe embedding,
deserializes the stored one and only then runs the matcher. -/
def verify_face_route (now : ℤ) (tok : MfaToken) (has_payload : Bool)
    (user : Option UserRec) (extract_ok deserialize_ok matcher_match : Bool) :
    MfaRouteResult :=
  if has_payload = false then .badRequest else
  match decode_mfa_token now tok with
  | .error e => .tokenRejected e
  | .ok _ =>
    match user with
    | none => .userNotFound
    | some u =>
      if u.face_enrolled = false then .notEnrolled
      else if extract_ok = false then .extractionFailed
      else if deserialize_ok = false then .storedDataInvalid
      else if matcher_match then .sessionGranted
      else .matchRejected

/-- `/mfa/verify-voice` (lines 382-457).  An extraction `ValueError` is only
caught by the blanket handler (500). -/
def mfa_verify_voice_route (now : ℤ) (tok : MfaToken) (has_payload : Bool)
    (user : Option UserRec) (template_present extract_ok matcher_match : Bool) :
    MfaRouteResult :=
  if has_payload = false then .badRequest else
  match decode_mfa_token now tok with
  | .error e => .tokenRejected e
  | .ok _ =>
    match user with
    | none => .userNotFound
    | some _ =>
      if template_present = false then .notEnrolled
      else if extract_ok = false then .internalError
      else if matcher_match then .sessionGranted
      else .matchRejected

/-- `/mfa/verify-otp` (lines 459-548). -/
def verify_otp_route (now : ℤ) (tok : MfaToken) (has_payload : Bool)
    (user : Option UserRec) (otp_valid : Bool) : MfaRouteResult :=
  if has_payload = false then .badRequest else
  match decode_mfa_token now tok with
  | .error e => .tokenRejected e
  | .ok _ =>
    match user with
    | none => .userNotFound
    | some u =>
      if u.otp_enrolled = false then .notEnrolled
      else if otp_valid then .sessionGranted
      else .otpRejected

/-- The read phase of `/mfa/verify-backup-code` (line 572): the query for
the user's unused codes, a snapshot of the database at read time. -/
def backup_read (db : List BCode) : List BCode :=
  db.filter (fun c => !c.is_used)

/-- The write phase (lines 578-596): the matched ORM object is marked used
and committed; the update is unconditional (not a conditional update). -/
def backup_write (db : List BCode) (found : BCode) : List BCode :=
  db.map (fun c => if c.id = found.id then { c with is_used := true } else c)

/-- Decision of `/mfa/verify-backup-code` (lines 572-617) from a snapshot:
the linear scan over the snapshot decides, and the write is applied to the
database as it is at commit time. -/
def backup_decide_and_write (snapshot db : List BCode) (v : ℕ) :
    MfaRouteResult × List BCode :=
  if snapshot.isEmpty then (.noCodes, db)
  else
    match snapshot.find? (fun c => c.code == v) with
    | some c => (.sessionGranted, backup_write db c)
    | none => (.matchRejected, db)

/-- `/mfa/verify-backup-code` (lines 552-623), sequential execution: read
the unused codes, then decide and write. -/
def verify_backup_code_route (now : ℤ) (tok : MfaToken) (has_payload : Bool)
    (user : Option UserRec) (db : List BCode) (v : ℕ) :
    MfaRouteResult × List BCode :=
  if has_payload = false then (.badRequest, db) else
  match decode_mfa_token now tok with
  | .error e => (.tokenRejected e, db)
  | .ok _ =>
    match user with
    | none => (.userNotFound, db)
    | some _ => backup_decide_and_write (backup_read db) db v

/-- `/mfa/verify-gesture` (lines 626-749). -/
def verify_gesture_route (now : ℤ) (tok : MfaToken) (has_payload : Bool)
    (user : Option UserRec) (extract_ok matcher_match : Bool) : MfaRouteResult :=
  if has_payload = false then .badRequest else
  match decode_mfa_token now tok with
  | .error e => .tokenRejected e
  | .ok _ =>
    match user with
    | none => .notEnrolled
    | some u =>
      if u.gesture_enrolled = false then .notEnrolled
      else if extract_ok = false then .extractionFailed
      else if matcher_match then .sessionGranted
      else .matchRejected

/-- `/mfa/verify-keystroke` (lines 753-836): the passphrase is compared
before the matcher runs. -/
def verify_keystroke_route (now : ℤ) (tok : MfaToken) (has_payload : Bool)
    (user : Option UserRec) (passphrase : ℕ) (matcher_verified : Bool) :
    MfaRouteResult :=
  if has_payload = false then .badRequest else
  match decode_mfa_token now tok with
  | .error e => .tokenRejected e
  | .ok _ =>
    match user with
    | none => .notEnrolled
    | some u =>
      if u.keystroke_enrolled = false then .notEnrolled
      else if passphrase ≠ u.keystroke_passphrase then .passphraseRejected
      else if matcher_verified then .sessionGranted
      else .matchRejected

/-! ## Statement abbreviations for the claims -/

/-- The property claimed by C2, for a token issued at `iat` for user `uid`
and redeemed at time `now`: every one of the six modality verification
routes rejects with the token-expiry error, for every database state and
every possible extraction or matcher outcome, and no session is issued. -/
def c2_statement (uid iat now : ℤ) : Prop :=
  ∀ (user : Option UserRec) (b1 b2 b3 b4 b5 b6 b7 b8 b9 : Bool)
    (db : List BCode) (v pp : ℕ),
    verify_face_route now (create_mfa_token uid iat) true user b1 b2 b3 =
      .tokenRejected .expired ∧
    mfa_verify_voice_route now (create_mfa_token uid iat) true user b4 b5 b6 =
      .tokenRejected .expired ∧
    verify_otp_route now (create_mfa_token uid iat) true user b7 =
      .tokenRejected .expired ∧
    (verify_backup_code_route now (create_mfa_token uid iat) true user db v).1 =
      .tokenRejected .expired ∧
    verify_gesture_route now (create_mfa_token uid iat) true user b8 b9 =
      .tokenRejected .expired ∧
    verify_keystroke_route now (create_mfa_token uid iat) true user pp b1 =
      .tokenRejected .expired ∧
    MfaRouteResult.tokenRejected .expired ≠ .sessionGranted ∧
    MFA_TOKEN_EXPIRY = 300

/-- The amended property of C3 for template and probe vectors of unequal
dimensionality: face and gesture verification fail closed to a no-match
result value; keystroke verification fails closed when the shapes are not
broadcastable (neither side of length one), while with a length-one side
`numpy` broadcasts and the comparison simply proceeds — it does not fail
closed; the voice matcher raises a `ValueError` that escapes `compare`
(and hence the voice service's `verify`). -/
def c3_statement (known probe : List ℝ) (profile : SecurityProfile)
    (qk qp : ℝ) : Prop :=
  (¬ (AdvancedFaceService.verify_faces_lists known probe).is_match ∧
    (AdvancedFaceService.verify_faces_lists known probe).confidence = 0 ∧
    (AdvancedFaceService.verify_faces_lists known probe).distance = 1) ∧
  (¬ (AdvancedGestureService.verify_gestures_lists known probe).is_match ∧
    (AdvancedGestureService.verify_gestures_lists known probe).similarity = 0 ∧
    (AdvancedGestureService.verify_gestures_lists known probe).distance = 1) ∧
  (∀ on_ok, 1 < known.length → 1 < probe.length →
    KeystrokeDynamicsAnalyzer.verify_pattern_shapes known.length probe.length on_ok =
      (false, 0)) ∧
  (∀ on_ok, known.length = 1 ∨ probe.length = 1 →
    KeystrokeDynamicsAnalyzer.verify_pattern_shapes known.length probe.length on_ok =
      on_ok) ∧
  VoiceMatcher.compareLists known probe profile qk qp =
    Except.error PyExn.valueErrorDimMismatch

/-- The amended property of C4: under sequential execution a backup code is
single-use — a redemption that runs after a committed redemption of the
same code does not grant a session. -/
def c4_sequential_statement (now : ℤ) (tok : MfaToken) (u : UserRec)
    (db : List BCode) (v : ℕ) : Prop :=
  (verify_backup_code_route now tok true (some u) db v).1 = .sessionGranted ∧
  (verify_backup_code_route now tok true (some u)
      (verify_backup_code_route now tok true (some u) db v).2 v).1 ≠
    .sessionGranted

/-- The property claimed by C5, at the level of the combined-similarity
formula: the result's similarity is the weighted blend of cosine,
inverse-Euclidean and rescaled Pearson similarities scaled by the quality
factor, the match decision is the threshold comparison on it, and the
three profile thresholds have the claimed values. -/
def c5_statement (n : ℕ) (known probe : Fin n → ℝ) (profile : SecurityProfile)
    (qk qp : ℝ) : Prop :=
  (VoiceMatcher.compare known probe profile qk qp).similarity =
    (0.5 * (dotv known probe / (npNorm known * npNorm probe + 1e-9)) +
     0.3 * (1 / (1 + npNorm (fun i => known i - probe i))) +
     0.2 * ((corrcoef known probe + 1) / 2)) *
    (0.5 + 0.5 * max 0 (min 1 ((qk + qp) / 2))) ∧
  ((VoiceMatcher.compare known probe profile qk qp).is_match ↔
    profileThreshold profile ≤ (VoiceMatcher.compare known probe profile qk qp).similarity) ∧
  profileThreshold .RELAXED = 0.80 ∧
  profileThreshold .BALANCED = 0.88 ∧
  profileThreshold .STRICT = 0.93

/-- The amended property of C7: self-match for the keystroke matcher (a
profile enrolled from identical copies of a sample accepts that sample),
for the face matcher on any embedding of non-negligible norm, for the
gesture matcher on any non-constant feature vector of non-negligible
norm, and for the voice matcher on such a vector only when the shared
quality score is high (at least 0.77). -/
def c7_statement {nf nk ng nv : ℕ} (m : ℕ) (e : Fin nf → ℝ) (v : Fin nk → ℝ)
    (f : Fin ng → ℝ) (x : Fin nv → ℝ) (q : ℝ) : Prop :=
  (AdvancedFaceService.verify_faces e e).is_match ∧
  (KeystrokeDynamicsAnalyzer.verify_pattern
    (KeystrokeDynamicsAnalyzer.profile_mean (List.replicate m v))
    (KeystrokeDynamicsAnalyzer.profile_std (List.replicate m v)) v).verified ∧
  (AdvancedGestureService.verify_gestures f f).is_match ∧
  (VoiceMatcher.compare x x .BALANCED q q).is_match

/-- The amended property of C9: face extraction failures (no face
detected, several faces detected) and gesture extraction failures are
ordinary result values, keystroke verification-time failures degrade to a
false decision, while undersized audio makes the voice service raise a
`ValueError` out of the component, and a keystroke extraction failure
escapes `enroll_pattern` as an exception. -/
def c9_statement (num_points timings_len byte_len : ℕ)
    (profile : SecurityProfile) (lens : List ℕ) (enc_ok : Bool) : Prop :=
  AdvancedFaceService.extract_embedding_check 0 enc_ok =
    some AdvancedFaceService.FaceExtractErr.noFaceDetected ∧
  AdvancedFaceService.extract_embedding_check 2 enc_ok =
    some AdvancedFaceService.FaceExtractErr.multipleFacesDetected ∧
  AdvancedFaceService.extract_embedding_check 1 false =
    some AdvancedFaceService.FaceExtractErr.encodingFailed ∧
  AdvancedGestureService.extract_features_check num_points =
    some AdvancedGestureService.GestureErr.insufficientPoints ∧
  (∀ on_ok, KeystrokeDynamicsAnalyzer.verify_pattern_entry timings_len on_ok =
    (false, 0)) ∧
  advancedVoiceServiceV2_extract_features_guard byte_len profile =
    Except.error PyExn.valueErrorAudioTooShort ∧
  KeystrokeDynamicsAnalyzer.enroll_pattern_guard lens =
    Except.error PyExn.valueErrorInsufficientKeystrokeData

/-! ## Helper lemmas -/

theorem sumSq_nonneg {n : ℕ} (a : Fin n → ℝ) : 0 ≤ sumSq a :=
  Finset.sum_nonneg fun _ _ => sq_nonneg _

theorem npNorm_nonneg {n : ℕ} (a : Fin n → ℝ) : 0 ≤ npNorm a :=
  Real.sqrt_nonneg _

theorem npNorm_mul_self {n : ℕ} (a : Fin n → ℝ) :
    npNorm a * npNorm a = sumSq a :=
  Real.mul_self_sqrt (sumSq_nonneg a)

theorem dotv_self {n : ℕ} (a : Fin n → ℝ) : dotv a a = sumSq a := by
  unfold dotv sumSq
  exact Finset.sum_congr rfl fun i _ => (sq (a i)).symm ▸ (pow_two (a i)).symm

/-- Cauchy-Schwarz in the form needed for the similarity bounds. -/
theorem dotv_le_norm_mul_norm {n : ℕ} (a b : Fin n → ℝ) :
    dotv a b ≤ npNorm a * npNorm b := by
  have h := Real.sum_mul_le_sqrt_mul_sqrt Finset.univ a b
  simpa [dotv, npNorm, sumSq] using h

theorem manhattanDist_nonneg {n : ℕ} (a b : Fin n → ℝ) : 0 ≤ manhattanDist a b :=
  Finset.sum_nonneg fun _ _ => abs_nonneg _

/-- A cosine-style ratio with a positive stabiliser in the denominator is
at most one. -/
theorem cosine_like_le_one {n : ℕ} (a b : Fin n → ℝ) (eps : ℝ) (heps : 0 < eps) :
    dotv a b / (npNorm a * npNorm b + eps) ≤ 1 := by
  have hN : 0 ≤ npNorm a * npNorm b := mul_nonneg (npNorm_nonneg a) (npNorm_nonneg b)
  have hpos : 0 < npNorm a * npNorm b + eps := by linarith
  rw [div_le_one hpos]
  have := dotv_le_norm_mul_norm a b
  linarith

theorem corrcoef_le_one {n : ℕ} (a b : Fin n → ℝ) : corrcoef a b ≤ 1 := by
  unfold corrcoef
  rcases eq_or_lt_of_le
      (mul_nonneg (npNorm_nonneg (centered a)) (npNorm_nonneg (centered b))) with h0 | h0
  · rw [← h0, div_zero]
    norm_num
  · rw [div_le_one h0]
    exact dotv_le_norm_mul_norm (centered a) (centered b)

theorem one_div_one_add_le_one (d : ℝ) (hd : 0 ≤ d) : 1 / (1 + d) ≤ 1 := by
  rw [div_le_one (by linarith)]
  linarith

theorem one_div_one_add_nonneg (d : ℝ) (hd : 0 ≤ d) : 0 ≤ 1 / (1 + d) :=
  div_nonneg zero_le_one (by linarith)

/-! ## Claim theorems -/

/-- Claim C1 (confirmed): face verification is a conjunctive
three-criterion gate.  The confidence is the stated monotone transform of
the distance, and the match decision holds iff distance is below 0.35,
confidence is at least 90 and cosine similarity exceeds 0.65 — so failing
any one criterion forces a non-match. -/
theorem c1_face_verification_conjunctive_gate {n : ℕ} (known test : Fin n → ℝ) :
    (AdvancedFaceService.verify_faces known test).confidence =
      (if AdvancedFaceService.face_distance known test < 0.35 then
        (1 - AdvancedFaceService.face_distance known test / 0.35) * 100 else 0) ∧
    ((AdvancedFaceService.verify_faces known test).is_match ↔
      (AdvancedFaceService.face_distance known test < 0.35 ∧
        90 ≤ (AdvancedFaceService.verify_faces known test).confidence ∧
        0.65 < AdvancedFaceService.cosine_similarity known test)) := by
  unfold AdvancedFaceService.verify_faces AdvancedFaceService.DISTANCE_THRESHOLD
    AdvancedFaceService.MIN_CONFIDENCE AdvancedFaceService.MIN_COSINE_SIMILARITY
  norm_num

/-- Claim C6 (confirmed): keystroke verification computes the distance as
the root mean square of per-feature normalized deviations, the confidence
as 100 over one plus the distance, and verifies iff both the distance is
below 1.2 and the confidence is at least 38. -/
theorem c6_keystroke_distance_confidence_gate {n : ℕ}
    (mean_features std_features sample_features : Fin n → ℝ) :
    KeystrokeDynamicsAnalyzer.verification_distance mean_features std_features sample_features =
      Real.sqrt ((∑ i, ((sample_features i - mean_features i) /
        (std_features i + 1e-6)) ^ 2) / n) ∧
    (KeystrokeDynamicsAnalyzer.verify_pattern mean_features std_features sample_features).confidence =
      100 / (1 + KeystrokeDynamicsAnalyzer.verification_distance mean_features std_features sample_features) ∧
    ((KeystrokeDynamicsAnalyzer.verify_pattern mean_features std_features sample_features).verified ↔
      (KeystrokeDynamicsAnalyzer.verification_distance mean_features std_features sample_features < 1.2 ∧
        38 ≤ 100 / (1 + KeystrokeDynamicsAnalyzer.verification_distance mean_features std_features sample_features))) := by
  have he : ∀ d : ℝ, (1 / (1 + d)) * 100 = 100 / (1 + d) := fun d => by ring
  refine ⟨rfl, ?_, ?_⟩
  · simp only [KeystrokeDynamicsAnalyzer.verify_pattern]
    exact he _
  · simp only [KeystrokeDynamicsAnalyzer.verify_pattern,
      KeystrokeDynamicsAnalyzer.SIMILARITY_THRESHOLD,
      KeystrokeDynamicsAnalyzer.MIN_CONFIDENCE]
    rw [he]

/-- Claim C10 (confirmed): since the distance is nonnegative, a distance
below 1.2 already forces the confidence above the 38 floor, so keystroke
verification accepts exactly when the distance criterion alone holds. -/
theorem c10_keystroke_confidence_criterion_redundant {n : ℕ}
    (mean_features std_features sample_features : Fin n → ℝ) :
    (KeystrokeDynamicsAnalyzer.verify_pattern mean_features std_features sample_features).verified ↔
      KeystrokeDynamicsAnalyzer.verification_distance mean_features std_features sample_features < 1.2 := by
  have hd : 0 ≤ KeystrokeDynamicsAnalyzer.verification_distance
      mean_features std_features sample_features := Real.sqrt_nonneg _
  simp only [KeystrokeDynamicsAnalyzer.verify_pattern,
    KeystrokeDynamicsAnalyzer.SIMILARITY_THRESHOLD,
    KeystrokeDynamicsAnalyzer.MIN_CONFIDENCE]
  constructor
  · exact fun h => h.1
  · intro h
    refine ⟨h, ?_⟩
    have h1 : (0 : ℝ) < 1 +
        KeystrokeDynamicsAnalyzer.verification_distance
          mean_features std_features sample_features := by linarith
    rw [div_mul_eq_mul_div, one_mul, le_div_iff₀ h1]
    nlinarith

/-- Claim C2 (confirmed): a challenge token redeemed once its 300-second
TTL has elapsed is rejected by every modality verification route before
any matcher outcome is consulted, and no session is granted. -/
theorem c2_expired_token_rejected_before_matching (uid iat now : ℤ)
    (h : iat + MFA_TOKEN_EXPIRY ≤ now) : c2_statement uid iat now := by
  intro user b1 b2 b3 b4 b5 b6 b7 b8 b9 db v pp
  have hdec : decode_mfa_token now (create_mfa_token uid iat) =
      .error TokenErr.expired := by
    have hexp : iat + MFA_TOKEN_EXPIRY ≤ now := h
    simp [decode_mfa_token, create_mfa_token, hexp]
  refine ⟨?_, ?_, ?_, ?_, ?_, ?_, by simp, rfl⟩ <;>
    simp [verify_face_route, mfa_verify_voice_route, verify_otp_route,
      verify_backup_code_route, verify_gesture_route, verify_keystroke_route, hdec]

/-- Witness for C2 at a concrete expired token. -/
theorem c2_expired_token_rejected_before_matching_witness :
    (0 : ℤ) + MFA_TOKEN_EXPIRY ≤ 300 ∧ c2_statement 7 0 300 :=
  ⟨by norm_num [MFA_TOKEN_EXPIRY],
   c2_expired_token_rejected_before_matching 7 0 300 (by norm_num [MFA_TOKEN_EXPIRY])⟩

/-- Claim C5 (confirmed): the voice matcher blends cosine (0.5),
inverse-Euclidean (0.3) and rescaled Pearson (0.2) similarities, scales by
the clamped-average quality factor, and matches iff the effective
similarity reaches the profile threshold (0.80 / 0.88 / 0.93). -/
theorem c5_voice_weighted_similarity_gate {n : ℕ} (h : 2 ≤ n)
    (known probe : Fin n → ℝ) (profile : SecurityProfile) (qk qp : ℝ) :
    c5_statement n known probe profile qk qp := by
  have hn : ¬ n < 2 := not_lt.mpr h
  unfold c5_statement
  refine ⟨?_, Iff.rfl, rfl, rfl, rfl⟩
  simp only [VoiceMatcher.compare, VoiceMatcher.cosine, VoiceMatcher.euclidean_sim,
    VoiceMatcher.correlation_sim, hn, if_false]

/-- Witness for C5 at a concrete pair of 2-dimensional vectors. -/
theorem c5_voice_weighted_similarity_gate_witness :
    2 ≤ 2 ∧ c5_statement 2 ![1, 0] ![0, 1] SecurityProfile.BALANCED 1 1 :=
  ⟨le_refl 2,
   c5_voice_weighted_similarity_gate (le_refl 2) ![1, 0] ![0, 1]
     SecurityProfile.BALANCED 1 1⟩

/-- Counterexample to C3 as stated: on a dimension mismatch the voice
matcher does not return a no-match value — it raises a `ValueError`
(modelled as `Except.error`) that escapes `VoiceMatcher.compare` and the
voice service's `verify` to their caller. -/
theorem c3_voice_dim_mismatch_raises_counterexample :
    VoiceMatcher.compareLists [1, 0] [1, 0, 0] SecurityProfile.BALANCED 1 1 =
      Except.error PyExn.valueErrorDimMismatch := by
  rfl

/-- Claim C3 (corrected): on template and probe vectors of different
lengths, the face and gesture matchers fail closed to a no-match result
value; the keystroke matcher fails closed exactly when the shapes are not
broadcastable (with a length-one side `numpy` broadcasts and the
comparison proceeds instead of failing closed); and the voice matcher
raises. -/
theorem c3_dim_mismatch_fails_closed_except_voice (known probe : List ℝ)
    (profile : SecurityProfile) (qk qp : ℝ)
    (h : known.length ≠ probe.length) :
    c3_statement known probe profile qk qp := by
  unfold c3_statement
  refine ⟨?_, ?_, ?_, ?_, ?_⟩
  · unfold AdvancedFaceService.verify_faces_lists
    rw [dif_neg h]
    exact ⟨not_false, rfl, rfl⟩
  · unfold AdvancedGestureService.verify_gestures_lists
    rw [dif_neg h]
    exact ⟨not_false, rfl, rfl⟩
  · intro on_ok h1 h2
    unfold KeystrokeDynamicsAnalyzer.verify_pattern_shapes
    rw [if_neg]
    push_neg
    exact ⟨fun hh => h hh.symm, ne_of_gt h2, ne_of_gt h1⟩
  · intro on_ok h1
    unfold KeystrokeDynamicsAnalyzer.verify_pattern_shapes
    rcases h1 with h1 | h1
    · exact if_pos (Or.inr (Or.inr h1))
    · exact if_pos (Or.inr (Or.inl h1))
  · unfold VoiceMatcher.compareLists
    rw [dif_neg h]

/-- Witness for the amended C3 at concrete lists of lengths 2 and 3. -/
theorem c3_dim_mismatch_fails_closed_except_voice_witness :
    ([(1 : ℝ), 0].length ≠ [(1 : ℝ), 0, 0].length) ∧
    c3_statement [1, 0] [1, 0, 0] SecurityProfile.BALANCED 1 1 :=
  ⟨by decide,
   c3_dim_mismatch_fails_closed_except_voice [1, 0] [1, 0, 0]
     SecurityProfile.BALANCED 1 1 (by decide)⟩

/-- Counterexample to C4 as stated: the route marks a code used with a
plain read-then-write, not a conditional update, so two interleaved
redemptions that both read the database before either commit both observe
the single code `42` as unused and both grant a session. -/
theorem c4_concurrent_double_grant_counterexample :
    (backup_decide_and_write (backup_read [⟨1, 42, false⟩]) [⟨1, 42, false⟩] 42).1 =
      MfaRouteResult.sessionGranted ∧
    (backup_decide_and_write (backup_read [⟨1, 42, false⟩])
        (backup_decide_and_write (backup_read [⟨1, 42, false⟩])
          [⟨1, 42, false⟩] 42).2 42).1 =
      MfaRouteResult.sessionGranted := by
  decide

/-- Claim C4 (corrected): under sequential execution a backup code is
single-use — when exactly one unused code carries the submitted value, the
first redemption grants and a second redemption run on the committed state
does not. -/
theorem c4_backup_code_single_use_sequential (now : ℤ) (tok : MfaToken)
    (u : UserRec) (db : List BCode) (v : ℕ)
    (hsig : tok.sig_ok = true) (hexp : now < tok.exp)
    (hone : (db.filter (fun c => !c.is_used && c.code == v)).length = 1) :
    c4_sequential_statement now tok u db v := by
  have hdec : decode_mfa_token now tok = .ok tok.user_id := by
    simp [decode_mfa_token, hsig, not_le.mpr hexp]
  obtain ⟨c0, hc0⟩ := List.length_eq_one.mp hone
  have hc0mem : c0 ∈ db.filter (fun c => !c.is_used && c.code == v) := by
    rw [hc0]; exact List.mem_singleton_self c0
  have hc0db : c0 ∈ db := (List.mem_filter.mp hc0mem).1
  have hc0Q : (!c0.is_used && c0.code == v) = true := (List.mem_filter.mp hc0mem).2
  have hc0unused : c0.is_used = false := by
    have := ((Bool.and_eq_true _ _).mp hc0Q).1
    simpa [Bool.not_eq_true'] using this
  have hc0code : c0.code = v := by
    have := ((Bool.and_eq_true _ _).mp hc0Q).2
    simpa using this
  have hmem1 : c0 ∈ backup_read db := by
    unfold backup_read
    exact List.mem_filter.mpr ⟨hc0db, by simp [hc0unused]⟩
  have hne1 : (backup_read db).isEmpty = false := by
    cases hbr : backup_read db with
    | nil => rw [hbr] at hmem1; exact absurd hmem1 (List.not_mem_nil c0)
    | cons a l => rfl
  have hfindsome : ∃ c1, (backup_read db).find? (fun c => c.code == v) = some c1 := by
    cases hf : (backup_read db).find? (fun c => c.code == v) with
    | some c1 => exact ⟨c1, rfl⟩
    | none =>
      have := List.find?_eq_none.mp hf c0 hmem1
      simp [hc0code] at this
  obtain ⟨c1, hfind⟩ := hfindsome
  have hc1p : (c1.code == v) = true :=
    @List.find?_some BCode (fun c => c.code == v) c1 (backup_read db) hfind
  have hc1mem : c1 ∈ backup_read db := List.mem_of_find?_eq_some hfind
  have hc1db : c1 ∈ db := (List.mem_filter.mp hc1mem).1
  have hc1unused : (!c1.is_used) = true := (List.mem_filter.mp hc1mem).2
  have hc1eq : c1 = c0 := by
    have hmq : c1 ∈ db.filter (fun c => !c.is_used && c.code == v) :=
      List.mem_filter.mpr ⟨hc1db, (Bool.and_eq_true _ _).mpr ⟨hc1unused, hc1p⟩⟩
    rw [hc0] at hmq
    exact List.mem_singleton.mp hmq
  have hroute1 : verify_backup_code_route now tok true (some u) db v =
      (.sessionGranted, backup_write db c0) := by
    simp [verify_backup_code_route, backup_decide_and_write, hdec, hne1, hfind, hc1eq]
  have hafter : ∀ a ∈ backup_write db c0, (!a.is_used && a.code == v) = false := by
    intro a ha
    unfold backup_write at ha
    obtain ⟨d, hd, hda⟩ := List.mem_map.mp ha
    by_cases hid : d.id = c0.id
    · rw [if_pos hid] at hda
      rw [← hda]
      simp
    · rw [if_neg hid] at hda
      rw [← hda]
      by_contra hcon
      have hQd : (!d.is_used && d.code == v) = true := by
        revert hcon; cases (!d.is_used && d.code == v) <;> simp
      have hmq : d ∈ db.filter (fun c => !c.is_used && c.code == v) :=
        List.mem_filter.mpr ⟨hd, hQd⟩
      rw [hc0] at hmq
      exact hid (by rw [List.mem_singleton.mp hmq])
  have hfindnone :
      (backup_read (backup_write db c0)).find? (fun c => c.code == v) = none := by
    rw [List.find?_eq_none]
    intro a ha
    have hadb1 : a ∈ backup_write db c0 := (List.mem_filter.mp ha).1
    have haun : (!a.is_used) = true := (List.mem_filter.mp ha).2
    have hfa := hafter a hadb1
    rw [haun, Bool.true_and] at hfa
    simp [hfa]
  unfold c4_sequential_statement
  rw [hroute1]
  refine ⟨rfl, ?_⟩
  simp only [verify_backup_code_route, backup_decide_and_write, hdec]
  cases hie : (backup_read (backup_write db c0)).isEmpty <;>
    simp [hie, hfindnone]

/-- Claim C8 (corrected, upper bound part): for every pair of
equal-dimensionality vectors, every profile and arbitrary quality scores,
the similarity reported by the voice matcher and by the gesture matcher is
at most one.  (The lower bound 0 of the claim fails; see the
counterexample.) -/
theorem c8_similarity_at_most_one {n : ℕ} (a b : Fin n → ℝ)
    (profile : SecurityProfile) (qk qp : ℝ) :
    (VoiceMatcher.compare a b profile qk qp).similarity ≤ 1 ∧
    (AdvancedGestureService.verify_gestures a b).similarity ≤ 1 := by
  have hcorr : corrcoef a b ≤ 1 := corrcoef_le_one a b
  have heu_nonneg : 0 ≤ npNorm (fun i => a i - b i) := npNorm_nonneg _
  have heu_le : 1 / (1 + npNorm (fun i => a i - b i)) ≤ 1 :=
    one_div_one_add_le_one _ heu_nonneg
  have heu_pos : 0 ≤ 1 / (1 + npNorm (fun i => a i - b i)) :=
    one_div_one_add_nonneg _ heu_nonneg
  constructor
  · simp only [VoiceMatcher.compare]
    have hcos : VoiceMatcher.cosine a b ≤ 1 := by
      unfold VoiceMatcher.cosine
      exact cosine_like_le_one a b _ (by norm_num)
    have hcorrs : VoiceMatcher.correlation_sim a b ≤ 1 := by
      unfold VoiceMatcher.correlation_sim
      by_cases hn : n < 2
      · rw [if_pos hn]; norm_num
      · rw [if_neg hn]; linarith
    have heu1 : VoiceMatcher.euclidean_sim a b ≤ 1 := heu_le
    have heu2 : 0 ≤ VoiceMatcher.euclidean_sim a b := heu_pos
    have hsim : 0.5 * VoiceMatcher.cosine a b + 0.3 * VoiceMatcher.euclidean_sim a b +
        0.2 * VoiceMatcher.correlation_sim a b ≤ 1 := by linarith
    have havg0 : 0 ≤ max 0 (min 1 ((qk + qp) / 2)) := le_max_left 0 _
    have havg1 : max 0 (min 1 ((qk + qp) / 2)) ≤ 1 :=
      max_le (by norm_num) (min_le_left 1 _)
    nlinarith [mul_le_mul_of_nonneg_right hsim
      (by linarith : (0 : ℝ) ≤ 0.5 + 0.5 * max 0 (min 1 ((qk + qp) / 2)))]
  · simp only [AdvancedGestureService.verify_gestures]
    have hcos : dotv a b / (npNorm a * npNorm b + 1e-10) ≤ 1 :=
      cosine_like_le_one a b _ (by norm_num)
    have hman0 : 0 ≤ manhattanDist a b := manhattanDist_nonneg a b
    have hman : 1 / (1 + manhattanDist a b) ≤ 1 := one_div_one_add_le_one _ hman0
    linarith

/-- Counterexample to C8 as stated: at the concrete opposed unit vectors
(1, 0) and (-1, 0) — which have equal dimensionality and negative cosine
similarity — both the voice matcher's effective similarity and the gesture
matcher's combined similarity are negative, so the similarity does not lie
in the unit interval. -/
theorem c8_negative_similarity_counterexample :
    (VoiceMatcher.compare ![(1 : ℝ), 0] ![(-1 : ℝ), 0]
      SecurityProfile.BALANCED 1 1).similarity < 0 ∧
    (AdvancedGestureService.verify_gestures ![(1 : ℝ), 0] ![(-1 : ℝ), 0]).similarity < 0 := by
  have hs1 : sumSq ![(1 : ℝ), 0] = 1 := by
    simp [sumSq, Fin.sum_univ_two]
  have hs2 : sumSq ![(-1 : ℝ), 0] = 1 := by
    simp [sumSq, Fin.sum_univ_two]
  have hn1 : npNorm ![(1 : ℝ), 0] = 1 := by
    rw [npNorm, hs1, Real.sqrt_one]
  have hn2 : npNorm ![(-1 : ℝ), 0] = 1 := by
    rw [npNorm, hs2, Real.sqrt_one]
  have hdot : dotv ![(1 : ℝ), 0] ![(-1 : ℝ), 0] = -1 := by
    simp [dotv, Fin.sum_univ_two]
  have hdiff : sumSq (fun i => ![(1 : ℝ), 0] i - ![(-1 : ℝ), 0] i) = 4 := by
    norm_num [sumSq, Fin.sum_univ_two]
  have hnd : npNorm (fun i => ![(1 : ℝ), 0] i - ![(-1 : ℝ), 0] i) = 2 := by
    rw [npNorm, hdiff, show (4 : ℝ) = 2 ^ 2 by norm_num,
      Real.sqrt_sq (by norm_num : (0 : ℝ) ≤ 2)]
  have hmean1 : npMean ![(1 : ℝ), 0] = 1 / 2 := by
    norm_num [npMean, Fin.sum_univ_two]
  have hmean2 : npMean ![(-1 : ℝ), 0] = -(1 / 2) := by
    norm_num [npMean, Fin.sum_univ_two]
  have hca : centered ![(1 : ℝ), 0] = ![(1 : ℝ) / 2, -(1 / 2)] := by
    funext i
    fin_cases i <;> norm_num [centered, hmean1]
  have hcb : centered ![(-1 : ℝ), 0] = ![-(1 : ℝ) / 2, 1 / 2] := by
    funext i
    fin_cases i <;> norm_num [centered, hmean2]
  have hdc : dotv (centered ![(1 : ℝ), 0]) (centered ![(-1 : ℝ), 0]) = -(1 / 2) := by
    rw [hca, hcb]
    norm_num [dotv, Fin.sum_univ_two]
  have hsca : sumSq ![(1 : ℝ) / 2, -(1 / 2)] = 1 / 2 := by
    norm_num [sumSq, Fin.sum_univ_two]
  have hscb : sumSq ![-(1 : ℝ) / 2, 1 / 2] = 1 / 2 := by
    norm_num [sumSq, Fin.sum_univ_two]
  have hprod : npNorm (centered ![(1 : ℝ), 0]) * npNorm (centered ![(-1 : ℝ), 0]) = 1 / 2 := by
    rw [hca, hcb, npNorm, npNorm, hsca, hscb]
    exact Real.mul_self_sqrt (by norm_num)
  have hcorr : corrcoef ![(1 : ℝ), 0] ![(-1 : ℝ), 0] = -1 := by
    unfold corrcoef
    rw [hdc, hprod]
    norm_num
  have hq : max (0 : ℝ) (min 1 ((1 + 1) / 2)) = 1 := by
    rw [show ((1 : ℝ) + 1) / 2 = 1 by norm_num, min_self,
      max_eq_right (by norm_num : (0 : ℝ) ≤ 1)]
  constructor
  · simp only [VoiceMatcher.compare, VoiceMatcher.cosine, VoiceMatcher.euclidean_sim,
      VoiceMatcher.correlation_sim]
    rw [hdot, hn1, hn2, hnd, hcorr, if_neg (by norm_num : ¬ (2 : ℕ) < 2), hq]
    norm_num
  · simp only [AdvancedGestureService.verify_gestures]
    have hmandist : manhattanDist ![(1 : ℝ), 0] ![(-1 : ℝ), 0] = 2 := by
      norm_num [manhattanDist, Fin.sum_univ_two]
    rw [hdot, hn1, hn2, hnd, hcorr, hmandist]
    norm_num

/-- Counterexample to C9 as stated: undersized audio (5000 bytes under the
BALANCED profile, which requires at least 10000) is not returned as an
ordinary result value — `extract_feature_vector` raises a `ValueError`
(modelled as `Except.error`) and the voice service's `extract_features`
propagates it to the caller. -/
theorem c9_voice_extraction_raises_counterexample :
    advancedVoiceServiceV2_extract_features_guard 5000 SecurityProfile.BALANCED =
      Except.error PyExn.valueErrorAudioTooShort := by
  rfl

/-- Claim C9 (corrected): face extraction failures (no face detected,
several faces detected) and gesture extraction failures are ordinary
result values, keystroke verification-time failures degrade to a false
decision, but undersized audio raises out of the voice service, and a
keystroke extraction failure raises out of `enroll_pattern`. -/
theorem c9_matcher_failures_as_values_except_raising_paths
    (num_points timings_len byte_len : ℕ) (profile : SecurityProfile)
    (lens : List ℕ) (enc_ok : Bool)
    (hpts : num_points < AdvancedGestureService.MIN_POINTS)
    (htl : timings_len < 3)
    (hbl : byte_len < profileMinBytes profile)
    (hlen : KeystrokeDynamicsAnalyzer.MIN_SAMPLES ≤ lens.length)
    (hbad : lens.any (fun l => l < 3) = true) :
    c9_statement num_points timings_len byte_len profile lens enc_ok := by
  unfold c9_statement
  refine ⟨rfl, rfl, rfl, ?_, ?_, ?_, ?_⟩
  · unfold AdvancedGestureService.extract_features_check
    rw [if_pos hpts]
  · intro on_ok
    unfold KeystrokeDynamicsAnalyzer.verify_pattern_entry
      KeystrokeDynamicsAnalyzer.extract_features_guard
    rw [if_pos htl]
  · unfold advancedVoiceServiceV2_extract_features_guard
      extract_feature_vector_size_guard
    rw [if_pos hbl]
  · unfold KeystrokeDynamicsAnalyzer.enroll_pattern_guard
    rw [if_neg (not_lt.mpr hlen), if_pos hbad]

/-- Witness for the amended C9 at concrete failing inputs. -/
theorem c9_matcher_failures_as_values_except_raising_paths_witness :
    5 < AdvancedGestureService.MIN_POINTS ∧ 2 < 3 ∧
    5000 < profileMinBytes SecurityProfile.BALANCED ∧
    KeystrokeDynamicsAnalyzer.MIN_SAMPLES ≤ ([2, 5, 5] : List ℕ).length ∧
    ([2, 5, 5] : List ℕ).any (fun l => l < 3) = true ∧
    c9_statement 5 2 5000 SecurityProfile.BALANCED [2, 5, 5] true :=
  ⟨by decide, by decide, by decide, by decide, by decide,
   c9_matcher_failures_as_values_except_raising_paths 5 2 5000
     SecurityProfile.BALANCED [2, 5, 5] true
     (by decide) (by decide) (by decide) (by decide) (by decide)⟩

/-- Enrolling from identical samples yields the sample itself as the mean
vector (`np.mean` over identical rows). -/
theorem profile_mean_replicate {n : ℕ} (m : ℕ) (hm : 0 < m) (v : Fin n → ℝ) :
    KeystrokeDynamicsAnalyzer.profile_mean (List.replicate m v) = v := by
  funext j
  unfold KeystrokeDynamicsAnalyzer.profile_mean
  rw [List.map_replicate, List.sum_replicate, List.length_replicate, nsmul_eq_mul]
  exact mul_div_cancel_left₀ _ (Nat.cast_ne_zero.mpr hm.ne')

/-- Enrolling from identical samples yields the zero vector as the
standard deviation (`np.std` over identical rows). -/
theorem profile_std_replicate {n : ℕ} (m : ℕ) (hm : 0 < m) (v : Fin n → ℝ) :
    KeystrokeDynamicsAnalyzer.profile_std (List.replicate m v) = fun _ => 0 := by
  funext j
  unfold KeystrokeDynamicsAnalyzer.profile_std
  rw [profile_mean_replicate m hm v, List.map_replicate]
  simp [List.sum_replicate]

/-- Counterexample to C7 as stated: voice self-match does NOT hold
regardless of the quality score.  Verifying the unit feature vector (1, 0)
against itself under BALANCED with the quality score 0.25 on both sides
(an admissible one-second recording) is rejected: the quality factor 0.625
pulls the effective similarity below the 0.88 threshold. -/
theorem c7_voice_low_quality_self_reject_counterexample :
    ¬ (VoiceMatcher.compare ![(1 : ℝ), 0] ![(1 : ℝ), 0]
        SecurityProfile.BALANCED 0.25 0.25).is_match := by
  have hs : sumSq ![(1 : ℝ), 0] = 1 := by norm_num [sumSq, Fin.sum_univ_two]
  have hn : npNorm ![(1 : ℝ), 0] = 1 := by rw [npNorm, hs, Real.sqrt_one]
  have hdot : dotv ![(1 : ℝ), 0] ![(1 : ℝ), 0] = 1 := by
    norm_num [dotv, Fin.sum_univ_two]
  have hdiff : (fun i => ![(1 : ℝ), 0] i - ![(1 : ℝ), 0] i) =
      (fun _ : Fin 2 => (0 : ℝ)) := funext fun i => sub_self _
  have hnd : npNorm (fun i => ![(1 : ℝ), 0] i - ![(1 : ℝ), 0] i) = 0 := by
    rw [hdiff, npNorm]
    simp [sumSq]
  have hD : sumSq (centered ![(1 : ℝ), 0]) = 1 / 2 := by
    norm_num [sumSq, centered, npMean, Fin.sum_univ_two]
  have hcorr : corrcoef ![(1 : ℝ), 0] ![(1 : ℝ), 0] = 1 := by
    unfold corrcoef
    rw [dotv_self, npNorm_mul_self, hD]
    norm_num
  simp only [VoiceMatcher.compare, VoiceMatcher.cosine, VoiceMatcher.euclidean_sim,
    VoiceMatcher.correlation_sim, profileThreshold]
  rw [hdot, hn, hnd, hcorr, if_neg (by norm_num : ¬ (2 : ℕ) < 2),
    show ((0.25 : ℝ) + 0.25) / 2 = 0.25 by norm_num,
    min_eq_right (by norm_num : (0.25 : ℝ) ≤ 1),
    max_eq_right (by norm_num : (0 : ℝ) ≤ 0.25)]
  norm_num

/-- Claim C7 (corrected): self-match holds for the face matcher on any
embedding of squared norm at least 1e-6 (distance 0, confidence 100,
cosine essentially 1), for the keystroke matcher (a profile enrolled from
any positive number of identical copies of a sample accepts that sample)
and for the gesture matcher on any non-constant feature vector of squared
norm at least 1e-6 (the extractor L2-normalises, so real templates have
norm 1); for the voice matcher it holds for such a vector only under a
sufficiently high shared quality score (0.77 suffices) — not regardless
of quality. -/
theorem c7_self_match_amended {nf nk ng nv : ℕ} (m : ℕ) (e : Fin nf → ℝ)
    (v : Fin nk → ℝ) (f : Fin ng → ℝ) (x : Fin nv → ℝ) (q : ℝ)
    (hm : 0 < m)
    (hSe : 1 / 1000000 ≤ sumSq e)
    (hDf : 0 < sumSq (centered f)) (hSf : 1 / 1000000 ≤ sumSq f)
    (hnv : 2 ≤ nv) (hDx : 0 < sumSq (centered x)) (hSx : 1 / 1000000 ≤ sumSq x)
    (hq1 : 0.77 ≤ q) (hq2 : q ≤ 1) :
    c7_statement m e v f x q := by
  unfold c7_statement
  refine ⟨?_, ?_, ?_, ?_⟩
  · -- face self-match
    have hdiff : (fun i => e i - e i) = (fun _ : Fin nf => (0 : ℝ)) :=
      funext fun i => sub_self _
    have hnd : AdvancedFaceService.face_distance e e = 0 := by
      unfold AdvancedFaceService.face_distance
      rw [hdiff, npNorm]
      simp [sumSq]
    have hcs : AdvancedFaceService.cosine_similarity e e =
        sumSq e / (sumSq e + 1e-10) := by
      unfold AdvancedFaceService.cosine_similarity
      rw [dotv_self, npNorm_mul_self]
    simp only [AdvancedFaceService.verify_faces,
      AdvancedFaceService.DISTANCE_THRESHOLD,
      AdvancedFaceService.MIN_CONFIDENCE,
      AdvancedFaceService.MIN_COSINE_SIMILARITY]
    rw [hnd, hcs]
    refine ⟨by norm_num, ?_, ?_⟩
    · rw [if_pos (by norm_num : (0 : ℝ) < 0.35)]
      norm_num
    · rw [lt_div_iff₀ (by nlinarith : (0 : ℝ) < sumSq e + 1e-10)]
      nlinarith
  · -- keystroke self-match
    rw [profile_mean_replicate m hm v, profile_std_replicate m hm v]
    simp only [KeystrokeDynamicsAnalyzer.verify_pattern,
      KeystrokeDynamicsAnalyzer.verification_distance,
      KeystrokeDynamicsAnalyzer.SIMILARITY_THRESHOLD,
      KeystrokeDynamicsAnalyzer.MIN_CONFIDENCE]
    have hz : ∀ i : Fin nk, ((v i - v i) / (0 + 1e-6)) ^ 2 = 0 := by
      intro i
      rw [sub_self, zero_div]
      norm_num
    rw [Finset.sum_congr rfl (fun i _ => hz i)]
    simp [Real.sqrt_zero]
    norm_num
  · -- gesture self-match
    have hcos : dotv f f = sumSq f := dotv_self f
    have hnn : npNorm f * npNorm f = sumSq f := npNorm_mul_self f
    have hdiff : (fun i => f i - f i) = (fun _ : Fin ng => (0 : ℝ)) :=
      funext fun i => sub_self _
    have hnd : npNorm (fun i => f i - f i) = 0 := by
      rw [hdiff, npNorm]
      simp [sumSq]
    have hcorr : corrcoef f f = 1 := by
      unfold corrcoef
      rw [dotv_self, npNorm_mul_self, div_self hDf.ne']
    have hman : manhattanDist f f = 0 := by
      simp [manhattanDist, sub_self]
    simp only [AdvancedGestureService.verify_gestures,
      AdvancedGestureService.SIMILARITY_THRESHOLD]
    rw [hcos, hnn, hnd, hcorr, hman]
    have hS0 : (0 : ℝ) ≤ sumSq f := sumSq_nonneg f
    have hc : (0.7 : ℝ) ≤ sumSq f / (sumSq f + 1e-10) := by
      rw [le_div_iff₀ (by linarith : (0 : ℝ) < sumSq f + 1e-10)]
      nlinarith
    norm_num
    nlinarith
  · -- voice self-match under high quality
    have hcos : dotv x x = sumSq x := dotv_self x
    have hnn : npNorm x * npNorm x = sumSq x := npNorm_mul_self x
    have hdiff : (fun i => x i - x i) = (fun _ : Fin nv => (0 : ℝ)) :=
      funext fun i => sub_self _
    have hnd : npNorm (fun i => x i - x i) = 0 := by
      rw [hdiff, npNorm]
      simp [sumSq]
    have hcorr : corrcoef x x = 1 := by
      unfold corrcoef
      rw [dotv_self, npNorm_mul_self, div_self hDx.ne']
    simp only [VoiceMatcher.compare, VoiceMatcher.cosine, VoiceMatcher.euclidean_sim,
      VoiceMatcher.correlation_sim, profileThreshold]
    rw [hcos, hnn, hnd, hcorr, if_neg (not_lt.mpr hnv),
      show (q + q) / 2 = q by ring, min_eq_right hq2,
      max_eq_right (by linarith : (0 : ℝ) ≤ q)]
    have hS0 : (0 : ℝ) ≤ sumSq x := sumSq_nonneg x
    have hc : (1000 / 1001 : ℝ) ≤ sumSq x / (sumSq x + 1e-9) := by
      rw [le_div_iff₀ (by linarith : (0 : ℝ) < sumSq x + 1e-9)]
      nlinarith
    have hc0 : (0 : ℝ) ≤ sumSq x / (sumSq x + 1e-9) :=
      div_nonneg hS0 (by linarith)
    have hkey : ((0.5 : ℝ) * (1000 / 1001) + 0.5) * (0.5 + 0.5 * 0.77) ≤
        (0.5 * (sumSq x / (sumSq x + 1e-9)) + 0.3 * (1 / (1 + 0)) +
          0.2 * ((1 + 1) / 2)) * (0.5 + 0.5 * q) := by
      have hl : (0.5 : ℝ) * (1000 / 1001) + 0.5 ≤
          0.5 * (sumSq x / (sumSq x + 1e-9)) + 0.3 * (1 / (1 + 0)) +
            0.2 * ((1 + 1) / 2) := by
        norm_num
        linarith
      have hr : (0.5 : ℝ) + 0.5 * 0.77 ≤ 0.5 + 0.5 * q := by linarith
      exact mul_le_mul hl hr (by norm_num) (by linarith)
    calc (0.88 : ℝ) ≤ ((0.5 : ℝ) * (1000 / 1001) + 0.5) * (0.5 + 0.5 * 0.77) := by
          norm_num
    _ ≤ _ := hkey

/-- Witness for the amended C7 at concrete vectors and quality 1. -/
theorem c7_self_match_amended_witness :
    0 < 1 ∧
    (1 / 1000000 : ℝ) ≤ sumSq ![(1 : ℝ), 0] ∧
    (0 : ℝ) < sumSq (centered ![(1 : ℝ), 0]) ∧
    2 ≤ 2 ∧
    (0.77 : ℝ) ≤ 1 ∧ (1 : ℝ) ≤ 1 ∧
    c7_statement 1 ![(1 : ℝ), 0] ![(100 : ℝ)] ![(1 : ℝ), 0] ![(1 : ℝ), 0] 1 :=
  ⟨by decide,
   by norm_num [sumSq, Fin.sum_univ_two],
   by norm_num [sumSq, centered, npMean, Fin.sum_univ_two],
   le_refl 2, by norm_num, le_refl 1,
   c7_self_match_amended 1 ![(1 : ℝ), 0] ![(100 : ℝ)] ![(1 : ℝ), 0] ![(1 : ℝ), 0] 1
     (by decide)
     (by norm_num [sumSq, Fin.sum_univ_two])
     (by norm_num [sumSq, centered, npMean, Fin.sum_univ_two])
     (by norm_num [sumSq, Fin.sum_univ_two])
     (le_refl 2)
     (by norm_num [sumSq, centered, npMean, Fin.sum_univ_two])
     (by norm_num [sumSq, Fin.sum_univ_two])
     (by norm_num) (le_refl 1)⟩

/-- Witness for the amended C4 at a one-code database. -/
theorem c4_backup_code_single_use_sequential_witness :
    (MfaToken.mk 1 0 300 true).sig_ok = true ∧ (0 : ℤ) < (MfaToken.mk 1 0 300 true).exp ∧
    (([⟨1, 42, false⟩] : List BCode).filter (fun c => !c.is_used && c.code == 42)).length = 1 ∧
    c4_sequential_statement 0 (MfaToken.mk 1 0 300 true)
      (UserRec.mk 1 false false false false false 0) [⟨1, 42, false⟩] 42 :=
  ⟨rfl, by decide, by decide,
   c4_backup_code_single_use_sequential 0 (MfaToken.mk 1 0 300 true)
     (UserRec.mk 1 false false false false false 0) [⟨1, 42, false⟩] 42
     rfl (by decide) (by decide)⟩

end Mfa
